import Mathlib

/-!
Verification of the scripty pipeline engine against its specification.

The definitions below are a shallow embedding of the Rust sources:
`src/cmd/types.rs` (data model), `src/cmd/command.rs` (command builder and
argument quoting for the echo transcript), and `src/cmd/pipeline.rs`
(pipeline builder, process-graph spawner, wait semantics and buffered
capture).  Machine integers are modelled as `Nat`/`Int`, bytes as `Nat`,
OS strings as `String` (the lossless case of `to_string_lossy`), and
fallible operations as `Except`.  Interaction with the operating system
(spawn success, child exit statuses, read results) is abstracted into
explicit oracle parameters, so every definition is executable.
-/

set_option autoImplicit false

namespace Scripty

/-- Mirrors `PipeMode` from `src/cmd/types.rs`: which stream(s) of the
upstream stage feed the downstream stage's stdin. -/
inductive PipeMode
  | Stdout
  | Stderr
  | Both
deriving DecidableEq

/-- Mirrors the `Cmd` struct from `src/cmd/types.rs`. -/
structure Cmd where
  program : String
  args : List String
  envs : List (String × String)
  current_dir : Option String
  suppress_echo : Bool
deriving DecidableEq

/-- Mirrors `Cmd::new` from `src/cmd/command.rs`. -/
def Cmd.new (program : String) : Cmd :=
  { program := program, args := [], envs := [], current_dir := none,
    suppress_echo := false }

/-- Mirrors `Cmd::arg` from `src/cmd/command.rs`. -/
def Cmd.arg (c : Cmd) (a : String) : Cmd :=
  { c with args := c.args ++ [a] }

/-- Mirrors `Cmd::no_echo` from `src/cmd/command.rs`. -/
def Cmd.no_echo (c : Cmd) : Cmd :=
  { c with suppress_echo := true }

/-- Mirrors `CmdInput` from `src/cmd/types.rs`.  The streaming reader
carries no data relevant to the claims, so it is an opaque tag. -/
inductive CmdInput
  | Bytes (data : List Nat)
  | Reader
deriving DecidableEq

/-- Mirrors the `Pipeline` struct from `src/cmd/types.rs`. -/
structure Pipeline where
  connections : List (Cmd × PipeMode)
  input : Option CmdInput
  suppress_echo : Bool
deriving DecidableEq

/-- Mirrors `Cmd::into_pipeline` from `src/cmd/command.rs`. -/
def Cmd.into_pipeline (c : Cmd) : Pipeline :=
  { connections := [(c, PipeMode.Stdout)], input := none,
    suppress_echo := c.suppress_echo }

/-- Mirrors `Cmd::pipe_out` from `src/cmd/command.rs`. -/
def Cmd.pipe_out (c next : Cmd) : Pipeline :=
  { connections := [(c, PipeMode.Stdout), (next, PipeMode.Stdout)],
    input := none,
    suppress_echo := c.suppress_echo || next.suppress_echo }

/-- Mirrors `Cmd::pipe` (alias of `pipe_out`) from `src/cmd/command.rs`. -/
def Cmd.pipe (c next : Cmd) : Pipeline :=
  c.pipe_out next

/-- Mirrors `Cmd::pipe_err` from `src/cmd/command.rs`. -/
def Cmd.pipe_err (c next : Cmd) : Pipeline :=
  { connections := [(c, PipeMode.Stdout), (next, PipeMode.Stderr)],
    input := none,
    suppress_echo := c.suppress_echo || next.suppress_echo }

/-- Mirrors `Cmd::pipe_out_err` from `src/cmd/command.rs`. -/
def Cmd.pipe_out_err (c next : Cmd) : Pipeline :=
  { connections := [(c, PipeMode.Stdout), (next, PipeMode.Both)],
    input := none,
    suppress_echo := c.suppress_echo || next.suppress_echo }

/-- Mirrors `Pipeline::pipe_out` from `src/cmd/pipeline.rs`: pushes the
command with `Stdout` routing; the pipeline's `suppress_echo` field is
left untouched. -/
def Pipeline.pipe_out (p : Pipeline) (c : Cmd) : Pipeline :=
  { p with connections := p.connections ++ [(c, PipeMode.Stdout)] }

/-- Mirrors `Pipeline::pipe` (alias of `pipe_out`) from `src/cmd/pipeline.rs`. -/
def Pipeline.pipe (p : Pipeline) (c : Cmd) : Pipeline :=
  p.pipe_out c

/-- Mirrors `Pipeline::pipe_err` from `src/cmd/pipeline.rs`. -/
def Pipeline.pipe_err (p : Pipeline) (c : Cmd) : Pipeline :=
  { p with connections := p.connections ++ [(c, PipeMode.Stderr)] }

/-- Mirrors `Pipeline::pipe_out_err` from `src/cmd/pipeline.rs`. -/
def Pipeline.pipe_out_err (p : Pipeline) (c : Cmd) : Pipeline :=
  { p with connections := p.connections ++ [(c, PipeMode.Both)] }

/-- Mirrors `Pipeline::no_echo` from `src/cmd/pipeline.rs`. -/
def Pipeline.no_echo (p : Pipeline) : Pipeline :=
  { p with suppress_echo := true }

/-! ### Argument quoting for the echo transcript (`Cmd::quote_argument`) -/

/-- The single-quote character, by codepoint. -/
def squoteChar : Char := Char.ofNat 39

/-- A one-character string holding a single quote. -/
def squote : String := String.singleton squoteChar

/-- A one-character string holding a double quote. -/
def dquote : String := String.singleton (Char.ofNat 34)

/-- Mirrors the `needs_quoting` character class of `Cmd::quote_argument`
(`src/cmd/command.rs`): space, tab, newline, carriage return, double
quote, single quote, the control range U+0000..=U+001F, DEL, and the
shell metacharacters star, question mark, square brackets, curly braces,
tilde, dollar, backquote, vertical bar, ampersand, semicolon,
parentheses, angle brackets, hash, bang and equals.  Characters are
compared by codepoint so the definition stays self-contained. -/
def isSpecialChar (c : Char) : Bool :=
  let n := c.toNat
  n == 0x20 || n == 0x09 || n == 0x0A || n == 0x0D || n == 0x22 || n == 0x27 ||
  decide (n ≤ 0x1F) || n == 0x7F ||
  n == 0x2A || n == 0x3F || n == 0x5B || n == 0x5D || n == 0x7B || n == 0x7D ||
  n == 0x7E || n == 0x24 || n == 0x60 || n == 0x7C || n == 0x26 || n == 0x3B ||
  n == 0x28 || n == 0x29 || n == 0x3C || n == 0x3E || n == 0x23 || n == 0x21 ||
  n == 0x3D

/-- Mirrors Rust `char::is_control` (Unicode category Cc):
U+0000..=U+001F and U+007F..=U+009F. -/
def isRustControl (c : Char) : Bool :=
  decide (c.toNat ≤ 0x1F) || (decide (0x7F ≤ c.toNat) && decide (c.toNat ≤ 0x9F))

/-- Lower-case hexadecimal digit. -/
def hexDigitChar (n : Nat) : Char :=
  if n < 10 then Char.ofNat (48 + n) else Char.ofNat (87 + n)

/-- Two-digit lower-case hexadecimal rendering of a byte,
as produced by the Rust format specifier for a `u8`. -/
def hexByte (n : Nat) : String :=
  String.singleton (hexDigitChar (n / 16 % 16)) ++ String.singleton (hexDigitChar (n % 16))

/-- Mirrors the `escape_control_chars` closure in `Cmd::quote_argument`:
tab, newline, carriage return and NUL get mnemonic escapes, other
control characters a hex escape (the cast to `u8` truncates modulo 256),
everything else is kept as is. -/
def escapeControlChar (c : Char) : String :=
  if c == Char.ofNat 9 then "\\t"
  else if c == Char.ofNat 10 then "\\n"
  else if c == Char.ofNat 13 then "\\r"
  else if c == Char.ofNat 0 then "\\0"
  else if isRustControl c then "\\x" ++ hexByte (c.toNat % 256)
  else String.singleton c

/-- Character-by-character application of `escapeControlChar`. -/
def escapeControlChars (s : String) : String :=
  String.join (s.data.map escapeControlChar)

/-- Mirrors the first replace in the single-quote branch of
`Cmd::quote_argument`: every backslash is doubled. -/
def replaceBackslash (s : String) : String :=
  String.join (s.data.map (fun c =>
    if c == Char.ofNat 92 then "\\\\" else String.singleton c))

/-- Mirrors the second replace in the single-quote branch of
`Cmd::quote_argument`: every double quote gains a preceding backslash. -/
def replaceDQuote (s : String) : String :=
  String.join (s.data.map (fun c =>
    if c == Char.ofNat 34 then "\\" ++ dquote else String.singleton c))

/-- Mirrors `Cmd::quote_argument` from `src/cmd/command.rs` on the
lossless decoding of the argument. -/
def quote_argument (s : String) : String :=
  if s.isEmpty then dquote ++ dquote
  else
    let needs_quoting := s.data.any isSpecialChar
    if s.data.any (fun c => c == squoteChar) then
      let escaped := replaceDQuote (replaceBackslash s)
      let escaped := escapeControlChars escaped
      dquote ++ escaped ++ dquote
    else if needs_quoting then
      squote ++ escapeControlChars s ++ squote
    else s

theorem isSpecialChar_squote : isSpecialChar squoteChar = true := by decide

theorem quote_argument_of_safe (s : String) (hne : s ≠ "")
    (hsafe : s.data.all (fun c => ! isSpecialChar c) = true) :
    quote_argument s = s := by
  have hempty : s.isEmpty = false := by
    cases h : s.isEmpty
    · rfl
    · exact absurd ((String.isEmpty_iff s).mp h) hne
  have hall : ∀ c ∈ s.data, isSpecialChar c = false := by
    intro c hc
    have := List.all_eq_true.mp hsafe c hc
    simpa using this
  have hq : s.data.any (fun c => c == squoteChar) = false := by
    rw [List.any_eq_false]
    intro c hc
    intro h
    have hcq : c = squoteChar := by simpa using h
    have := hall c hc
    rw [hcq, isSpecialChar_squote] at this
    exact Bool.noConfusion this
  have hneed : s.data.any isSpecialChar = false := by
    rw [List.any_eq_false]
    intro c hc
    simp [hall c hc]
  unfold quote_argument
  rw [hempty]
  simp only [Bool.false_eq_true, if_false, hq, hneed]

/-! ### Errors, exit statuses and the pipeline handle (`src/cmd/error.rs`,
`src/cmd/pipeline.rs`) -/

/-- Mirrors the `Error` struct from `src/cmd/error.rs`: a message plus an
optional wrapped OS error, the latter modelled by its text. -/
structure Error where
  message : String
  source : Option String
deriving DecidableEq

/-- Rust debug rendering of an `Option i32`, as interpolated by
`Error::exit_code`. -/
def fmtOptI32 : Option Int → String
  | some n => "Some(" ++ toString n ++ ")"
  | none => "None"

/-- Mirrors `Error::exit_code` from `src/cmd/error.rs`. -/
def Error.exit_code (code : Option Int) : Error :=
  { message := "Command failed with exit code: " ++ fmtOptI32 code, source := none }

/-- Mirrors `Error::io` from `src/cmd/error.rs`. -/
def Error.ioErr (message : String) (e : String) : Error :=
  { message := message, source := some e }

/-- Mirrors `Error::no_stdout` from `src/cmd/error.rs`. -/
def Error.no_stdout : Error :=
  { message := "No stdout available to read from", source := none }

/-- A child process exit status; `code = none` models termination by
signal (Rust `ExitStatus::code` returning `None`). -/
structure ExitStatus where
  code : Option Int
deriving DecidableEq

/-- Mirrors Rust `ExitStatus::success`: the process exited with code zero. -/
def ExitStatus.success (s : ExitStatus) : Bool :=
  s.code == some 0

/-- Outcome of `Child::wait` for one child: either an exit status or an
OS-level error while joining, modelled by its text. -/
inductive WaitOutcome
  | ok (status : ExitStatus)
  | ioErr (e : String)
deriving DecidableEq

/-- Outcome of reading a captured stream to completion. -/
inductive ReadOutcome
  | ok (bytes : List Nat)
  | ioErr (e : String)
deriving DecidableEq

/-- Runtime model of one spawned child: how waiting on it resolves, and
what reading its captured stdout/stderr (when piped) yields. -/
structure ChildM where
  waitOutcome : WaitOutcome
  stdoutRead : Option ReadOutcome
  stderrRead : Option ReadOutcome
deriving DecidableEq

/-- Mirrors the `PipelineHandle` struct from `src/cmd/types.rs`. -/
structure PipelineHandleM where
  children : List ChildM
deriving DecidableEq

/-- The loop body of `PipelineHandle::wait` (`src/cmd/pipeline.rs`):
wait for each child in stage order; a join failure becomes an IO error,
the first unsuccessful exit status becomes `Error::exit_code`. -/
def waitChildren : List ChildM → Except Error Unit
  | [] => Except.ok ()
  | c :: rest =>
    match c.waitOutcome with
    | WaitOutcome.ioErr e =>
      Except.error (Error.ioErr "Failed to wait for child process" e)
    | WaitOutcome.ok status =>
      if status.success then waitChildren rest
      else Except.error (Error.exit_code status.code)

/-- Mirrors `PipelineHandle::wait` from `src/cmd/pipeline.rs`. -/
def PipelineHandleM.wait (h : PipelineHandleM) : Except Error Unit :=
  waitChildren h.children

/-- The wait loop inside `PipelineHandle::output_bytes`
(`src/cmd/pipeline.rs`): every child is waited for, join failures are
fatal, but exit statuses are ignored. -/
def waitAllIgnoreStatus : List ChildM → Except Error Unit
  | [] => Except.ok ()
  | c :: rest =>
    match c.waitOutcome with
    | WaitOutcome.ioErr e =>
      Except.error (Error.ioErr "Failed to wait for child process" e)
    | WaitOutcome.ok _ => waitAllIgnoreStatus rest

/-- Mirrors `PipelineHandle::output_bytes` from `src/cmd/pipeline.rs`:
take the last child's stdout, read it to completion, then wait for all
children ignoring their exit statuses; missing stdout is
`Error::no_stdout`. -/
def PipelineHandleM.output_bytes (h : PipelineHandleM) : Except Error (List Nat) :=
  match h.children.getLast? with
  | some last =>
    match last.stdoutRead with
    | some (ReadOutcome.ioErr e) => Except.error (Error.ioErr "Failed to read stdout" e)
    | some (ReadOutcome.ok bytes) =>
      match waitAllIgnoreStatus h.children with
      | Except.error e => Except.error e
      | Except.ok _ => Except.ok bytes
    | none => Except.error Error.no_stdout
  | none => Except.error Error.no_stdout

/-- Mirrors the `PipelineSpawn` struct from `src/cmd/types.rs`, with the
retained stream handles replaced by what consuming them would yield. -/
structure PipelineSpawnM where
  handle : PipelineHandleM
  stdinRetained : Bool
  stdoutRead : Option ReadOutcome
  stderrRead : Option ReadOutcome
deriving DecidableEq

/-- The capture branch of `Pipeline::execute_internal`
(`src/cmd/pipeline.rs`, `capture_output = true`), after the graph has
been spawned: read the retained stdout to completion (a read failure is
fatal), then `spawn.handle.wait()?` — which fails on the first non-zero
exit — and return the accumulated bytes.  The input-feeding worker
thread only writes to the first stage's stdin and its errors are
swallowed, so it does not affect the returned value. -/
def executeCapture (sp : PipelineSpawnM) : Except Error (List Nat) :=
  match sp.stdoutRead with
  | some (ReadOutcome.ioErr e) => Except.error (Error.ioErr "Failed to read stdout" e)
  | some (ReadOutcome.ok bytes) =>
    match sp.handle.wait with
    | Except.error e => Except.error e
    | Except.ok _ => Except.ok bytes
  | none =>
    match sp.handle.wait with
    | Except.error e => Except.error e
    | Except.ok _ => Except.ok []

/-- Whether a child both joined and exited successfully. -/
def childSuccess (c : ChildM) : Bool :=
  match c.waitOutcome with
  | WaitOutcome.ok st => st.success
  | WaitOutcome.ioErr _ => false

/-- The exit code a child's wait outcome carries. -/
def childCode (c : ChildM) : Option Int :=
  match c.waitOutcome with
  | WaitOutcome.ok st => st.code
  | WaitOutcome.ioErr _ => none

theorem waitAllIgnoreStatus_ok (cs : List ChildM)
    (h : ∀ d ∈ cs, ∃ st, d.waitOutcome = WaitOutcome.ok st) :
    waitAllIgnoreStatus cs = Except.ok () := by
  induction cs with
  | nil => rfl
  | cons c rest ih =>
    obtain ⟨st, hst⟩ := h c (List.mem_cons_self c rest)
    rw [waitAllIgnoreStatus, hst]
    exact ih (fun d hd => h d (List.mem_cons_of_mem c hd))

/-- C2: `PipelineHandle::wait` waits for the children in stage order and
returns the error carrying the exit code of the first child (in stage
order) whose exit status is unsuccessful; if every child exits
successfully it returns success.  (That `wait` consumes the handle is
the Rust ownership signature `fn wait(self)`; here `wait` is a plain
function of the handle value.)  The hypothesis states that every child
can actually be joined, i.e. no OS-level wait error occurs. -/
theorem wait_first_failure (cs : List ChildM)
    (h : ∀ c ∈ cs, ∃ st, c.waitOutcome = WaitOutcome.ok st) :
    PipelineHandleM.wait ⟨cs⟩ =
      match cs.find? (fun c => ! childSuccess c) with
      | none => Except.ok ()
      | some c => Except.error (Error.exit_code (childCode c)) := by
  induction cs with
  | nil => rfl
  | cons c rest ih =>
    obtain ⟨st, hst⟩ := h c (List.mem_cons_self c rest)
    have hrest := ih (fun d hd => h d (List.mem_cons_of_mem c hd))
    have hstep : PipelineHandleM.wait ⟨c :: rest⟩ =
        if st.success then PipelineHandleM.wait ⟨rest⟩
        else Except.error (Error.exit_code st.code) := by
      show waitChildren (c :: rest) = _
      rw [waitChildren, hst]
      rfl
    cases hsucc : st.success with
    | true =>
      rw [hstep, if_pos hsucc,
        List.find?_cons_of_neg _ (by simp [childSuccess, hst, hsucc])]
      exact hrest
    | false =>
      rw [hstep, if_neg (by simp [hsucc]),
        List.find?_cons_of_pos _ (by simp [childSuccess, hst, hsucc])]
      simp [childCode, hst]

/-- C2 witness: three children exiting 0, 3 and 5; `wait` surfaces the
exit code of the first unsuccessful child, namely 3. -/
theorem wait_first_failure_witness :
    PipelineHandleM.wait
      ⟨[⟨WaitOutcome.ok ⟨some 0⟩, none, none⟩,
        ⟨WaitOutcome.ok ⟨some 3⟩, none, none⟩,
        ⟨WaitOutcome.ok ⟨some 5⟩, none, none⟩]⟩ =
      Except.error (Error.exit_code (some 3)) := by
  rw [wait_first_failure _ (by
    intro c hc
    simp only [List.mem_cons, List.not_mem_nil, or_false] at hc
    rcases hc with rfl | rfl | rfl
    · exact ⟨⟨some 0⟩, rfl⟩
    · exact ⟨⟨some 3⟩, rfl⟩
    · exact ⟨⟨some 5⟩, rfl⟩)]
  rfl

/-- C1 (amended): buffered capture on the handle,
`PipelineHandle::output()` / `output_bytes()`, returns the accumulated
bytes of the captured last-stage stdout even when children exit with a
non-zero status — only a read or join error can fail it.  The
pipeline-level `Pipeline::output()` / `output_bytes()`
(`execute_internal` with capture) however propagate the error of
`handle.wait()`, so there a non-zero exit is fatal even after a
successful read. -/
theorem buffered_capture_exit_semantics :
    (∀ (cs : List ChildM) (c : ChildM) (bytes : List Nat),
      cs.getLast? = some c →
      c.stdoutRead = some (ReadOutcome.ok bytes) →
      (∀ d ∈ cs, ∃ st, d.waitOutcome = WaitOutcome.ok st) →
      PipelineHandleM.output_bytes ⟨cs⟩ = Except.ok bytes) ∧
    (∀ (sp : PipelineSpawnM) (bytes : List Nat) (e : Error),
      sp.stdoutRead = some (ReadOutcome.ok bytes) →
      sp.handle.wait = Except.error e →
      executeCapture sp = Except.error e) := by
  constructor
  · intro cs c bytes hlast hread hok
    rw [PipelineHandleM.output_bytes]
    simp only [hlast, hread, waitAllIgnoreStatus_ok cs hok]
  · intro sp bytes e hread hwait
    rw [executeCapture]
    simp only [hread, hwait]

/-- C1 witness: a single child that exits 1 after writing two bytes.
The handle-level capture returns the bytes; the pipeline-level capture
of the very same graph fails with the exit-code error. -/
theorem buffered_capture_exit_semantics_witness :
    PipelineHandleM.output_bytes
      ⟨[⟨WaitOutcome.ok ⟨some 1⟩, some (ReadOutcome.ok [104, 105]), none⟩]⟩ =
      Except.ok [104, 105] ∧
    executeCapture
      ⟨⟨[⟨WaitOutcome.ok ⟨some 1⟩, some (ReadOutcome.ok [104, 105]), none⟩]⟩,
        true, some (ReadOutcome.ok [104, 105]), none⟩ =
      Except.error (Error.exit_code (some 1)) := by
  constructor
  · exact buffered_capture_exit_semantics.1 _ _ _ rfl rfl (by
      intro d hd
      simp only [List.mem_cons, List.not_mem_nil, or_false] at hd
      subst hd
      exact ⟨⟨some 1⟩, rfl⟩)
  · exact buffered_capture_exit_semantics.2 _ [104, 105] _ rfl rfl

/-- C1 counterexample: the claim says `Pipeline::output_bytes` returns
the accumulated bytes without error when the only failure is a non-zero
exit.  Here the capture of the last stage's stdout succeeds with two
bytes and the sole child exits with status 1, yet `execute_internal`
returns the exit-code error rather than the bytes. -/
theorem buffered_capture_nonzero_exit_fails :
    executeCapture
      ⟨⟨[⟨WaitOutcome.ok ⟨some 1⟩, some (ReadOutcome.ok [104, 105]), none⟩]⟩,
        true, some (ReadOutcome.ok [104, 105]), none⟩ =
      Except.error (Error.exit_code (some 1)) ∧
    executeCapture
      ⟨⟨[⟨WaitOutcome.ok ⟨some 1⟩, some (ReadOutcome.ok [104, 105]), none⟩]⟩,
        true, some (ReadOutcome.ok [104, 105]), none⟩ ≠
      Except.ok [104, 105] := by
  refine ⟨rfl, ?_⟩
  intro h
  exact Except.noConfusion h

/-! ### The spawn loop of `Pipeline::spawn_io_all` as an event trace
(`src/cmd/pipeline.rs`) -/

/-- Process-lifecycle actions a spawner could take on the children.
The scripty spawn loop only ever attempts spawns: it never waits on or
kills an already-spawned child when a later stage fails. -/
inductive SpawnEvent
  | attempt (program : String)
  | waited (program : String)
  | killed (program : String)
deriving DecidableEq

/-- The stage loop of `Pipeline::spawn_io_all` (and of
`spawn_inherit_stdio`), instrumented with the lifecycle events it
performs.  `spawnErr i` is the OS oracle: `some e` means the spawn call
for stage `i` fails with OS error `e`.  On failure the loop returns at
once with `Error::io("Failed to spawn command: <program>", e)`, exactly
as the source's `map_err` does, touching no later stage and emitting no
wait or kill for the children spawned so far. -/
def spawnFrom (spawnErr : Nat → Option String) :
    Nat → List (Cmd × PipeMode) → List SpawnEvent × Except Error Unit
  | _, [] => ([], Except.ok ())
  | i, (c, _) :: rest =>
    match spawnErr i with
    | some e =>
      ([SpawnEvent.attempt c.program],
       Except.error (Error.ioErr ("Failed to spawn command: " ++ c.program) e))
    | none =>
      let r := spawnFrom spawnErr (i + 1) rest
      (SpawnEvent.attempt c.program :: r.1, r.2)

/-- The spawn loop started at stage 0, as `spawn_io_all` runs it. -/
def spawnStages (conns : List (Cmd × PipeMode)) (spawnErr : Nat → Option String) :
    List SpawnEvent × Except Error Unit :=
  spawnFrom spawnErr 0 conns

/-- The program name of stage `i`. -/
def programAt (conns : List (Cmd × PipeMode)) (i : Nat) : String :=
  match conns[i]? with
  | some cm => cm.1.program
  | none => ""

theorem programAt_cons_succ (cm : Cmd × PipeMode) (rest : List (Cmd × PipeMode))
    (j : Nat) : programAt (cm :: rest) (j + 1) = programAt rest j := by
  simp [programAt]

theorem spawnFrom_fail (spawnErr : Nat → Option String) :
    ∀ (l : List (Cmd × PipeMode)) (k i : Nat) (e : String),
      i < l.length →
      (∀ j, j < i → spawnErr (k + j) = none) →
      spawnErr (k + i) = some e →
      spawnFrom spawnErr k l =
        ((List.range (i + 1)).map (fun j => SpawnEvent.attempt (programAt l j)),
         Except.error (Error.ioErr ("Failed to spawn command: " ++ programAt l i) e)) := by
  intro l
  induction l with
  | nil =>
    intro k i e hi _ _
    exact absurd hi (by simp)
  | cons cm rest ih =>
    intro k i e hi hbefore hfail
    obtain ⟨c, m⟩ := cm
    cases i with
    | zero =>
      have hk : spawnErr k = some e := by simpa using hfail
      rw [spawnFrom, hk]
      simp [programAt, List.range_succ]
    | succ i =>
      have hk : spawnErr k = none := by simpa using hbefore 0 (Nat.succ_pos i)
      have hrec := ih (k + 1) i e (Nat.lt_of_succ_lt_succ hi)
        (fun j hj => by
          have := hbefore (j + 1) (Nat.succ_lt_succ hj)
          simpa [Nat.add_assoc, Nat.add_comm 1 j] using this)
        (by simpa [Nat.add_assoc, Nat.add_comm 1 i] using hfail)
      rw [spawnFrom, hk]
      simp only [hrec]
      rw [Prod.mk.injEq]
      refine ⟨?_, ?_⟩
      · conv_rhs => rw [List.range_succ_eq_map, List.map_cons, List.map_map]
        congr 1
        · simp [programAt]
        · exact (List.map_congr_left (fun j _ => by
            simp [Function.comp, programAt_cons_succ])).symm
      · rw [programAt_cons_succ]

/-- C3: if the spawn call for stage `i` is the first to fail, the spawn
loop aborts immediately: only stages `0..=i` were attempted (later
declared stages are never spawned, however many there are), the
already-spawned children receive no wait or kill from the engine, and
the returned error names the failing stage's program. -/
theorem spawn_failure_aborts (conns : List (Cmd × PipeMode))
    (spawnErr : Nat → Option String) (i : Nat) (e : String)
    (hi : i < conns.length)
    (hbefore : ∀ j, j < i → spawnErr j = none)
    (hfail : spawnErr i = some e) :
    spawnStages conns spawnErr =
      ((List.range (i + 1)).map (fun j => SpawnEvent.attempt (programAt conns j)),
       Except.error (Error.ioErr ("Failed to spawn command: " ++ programAt conns i) e)) ∧
    ∀ ev ∈ (spawnStages conns spawnErr).1, ∃ p, ev = SpawnEvent.attempt p := by
  have hmain := spawnFrom_fail spawnErr conns 0 i e hi
    (fun j hj => by simpa using hbefore j hj) (by simpa using hfail)
  refine ⟨hmain, ?_⟩
  intro ev hev
  rw [show spawnStages conns spawnErr = spawnFrom spawnErr 0 conns from rfl, hmain] at hev
  simp only [List.mem_map, List.mem_range] at hev
  obtain ⟨j, _, rfl⟩ := hev
  exact ⟨programAt conns j, rfl⟩

/-- C3 witness: a three-stage pipeline whose second stage fails to
spawn.  Only stages 0 and 1 are attempted, the error names the failing
program, and no wait or kill events occur. -/
theorem spawn_failure_aborts_witness :
    spawnStages
      [(Cmd.new "good", PipeMode.Stdout), (Cmd.new "bad", PipeMode.Stdout),
       (Cmd.new "later", PipeMode.Stdout)]
      (fun j => if j = 1 then some "ENOENT" else none) =
      ([SpawnEvent.attempt "good", SpawnEvent.attempt "bad"],
       Except.error (Error.ioErr "Failed to spawn command: bad" "ENOENT")) := by
  have h := spawn_failure_aborts
    [(Cmd.new "good", PipeMode.Stdout), (Cmd.new "bad", PipeMode.Stdout),
     (Cmd.new "later", PipeMode.Stdout)]
    (fun j => if j = 1 then some "ENOENT" else none) 1 "ENOENT"
    (by simp)
    (by
      intro j hj
      have : j = 0 := by omega
      subst this
      rfl)
    rfl
  rw [h.1]
  rfl

/-! ### Stream configuration computed by the spawn paths
(`src/cmd/pipeline.rs`) -/

/-- How one standard stream of a child is configured at spawn time:
inherited from the parent, piped back to the spawner, or attached to an
end of the inter-stage pipe created for edge `edge` (the edge between
stages `edge` and `edge + 1`).  `pipeWrite` with the same edge number on
stdout and stderr means (clones of) the same pipe write end. -/
inductive StdioCfg
  | inherit
  | piped
  | pipeWrite (edge : Nat)
  | pipeRead (edge : Nat)
deriving DecidableEq

/-- The three stream settings of one spawned stage. -/
structure StageCfg where
  stdin : StdioCfg
  stdout : StdioCfg
  stderr : StdioCfg
deriving DecidableEq

/-- The routing mode declared on the edge entering stage `i + 1`
(`self.connections[i + 1].1` in the source). -/
def nextModeAt (conns : List (Cmd × PipeMode)) (i : Nat) : Option PipeMode :=
  (conns[i + 1]?).map Prod.snd

/-- Stdin of stage `i` in the multi-stage loop of `spawn_io_all`:
stage 0 is piped for bulk/caller input, stage `i > 0` receives the read
end of the pipe created at edge `i - 1`. -/
def multiStageStdin (i : Nat) : StdioCfg :=
  if i = 0 then StdioCfg.piped else StdioCfg.pipeRead (i - 1)

/-- Stdout of stage `i` in the multi-stage loop of `spawn_io_all`: the
last stage is always piped; a non-last stage gets the write end of the
fresh edge-`i` pipe exactly when the next stage's mode is `Stdout` or
`Both`, and is otherwise left to inherit. -/
def multiStageStdout (conns : List (Cmd × PipeMode)) (i : Nat) : StdioCfg :=
  if i = conns.length - 1 then StdioCfg.piped
  else
    match nextModeAt conns i with
    | some PipeMode.Stdout => StdioCfg.pipeWrite i
    | some PipeMode.Stderr => StdioCfg.inherit
    | some PipeMode.Both => StdioCfg.pipeWrite i
    | none => StdioCfg.inherit

/-- Stderr of stage `i` in the multi-stage loop of `spawn_io_all`,
symmetric to `multiStageStdout`. -/
def multiStageStderr (conns : List (Cmd × PipeMode)) (i : Nat) : StdioCfg :=
  if i = conns.length - 1 then StdioCfg.piped
  else
    match nextModeAt conns i with
    | some PipeMode.Stdout => StdioCfg.inherit
    | some PipeMode.Stderr => StdioCfg.pipeWrite i
    | some PipeMode.Both => StdioCfg.pipeWrite i
    | none => StdioCfg.inherit

/-- The full stream configuration of stage `i` in the multi-stage
(`length ≥ 2`) branch of `spawn_io_all`. -/
def multiStageCfg (conns : List (Cmd × PipeMode)) (i : Nat) : StageCfg :=
  { stdin := multiStageStdin i,
    stdout := multiStageStdout conns i,
    stderr := multiStageStderr conns i }

/-- How many OS pipes the loop iteration for stage `i` creates: one per
non-last stage (each arm of the `match` on the next mode calls
`std::io::pipe()` exactly once), none for the last stage. -/
def pipeCallsAt (conns : List (Cmd × PipeMode)) (i : Nat) : Nat :=
  if i = conns.length - 1 then 0
  else
    match nextModeAt conns i with
    | some _ => 1
    | none => 0

/-- The seven `spawn_io_*` entry points of `Pipeline`
(`src/cmd/pipeline.rs`), identified by which streams the caller retains. -/
inductive SpawnPath
  | io_all
  | io_in
  | io_in_out
  | io_in_err
  | io_out
  | io_err
  | io_out_err
deriving DecidableEq

/-- Single-command branch of `spawn_io_all`: stdin, stdout and stderr
all piped. -/
def spawn_io_all_single : StageCfg :=
  { stdin := StdioCfg.piped, stdout := StdioCfg.piped, stderr := StdioCfg.piped }

/-- Single-command branch of `spawn_io_in`: only stdin piped, stdout
and stderr inherit. -/
def spawn_io_in_single : StageCfg :=
  { stdin := StdioCfg.piped, stdout := StdioCfg.inherit, stderr := StdioCfg.inherit }

/-- Single-command branch of `spawn_io_in_out`: stdin and stdout piped,
stderr inherits. -/
def spawn_io_in_out_single : StageCfg :=
  { stdin := StdioCfg.piped, stdout := StdioCfg.piped, stderr := StdioCfg.inherit }

/-- Single-command branch of `spawn_io_in_err`: stdin and stderr piped,
stdout inherits. -/
def spawn_io_in_err_single : StageCfg :=
  { stdin := StdioCfg.piped, stdout := StdioCfg.inherit, stderr := StdioCfg.piped }

/-- Single-command branch of `spawn_io_out`: only stdout piped, stdin
and stderr inherit. -/
def spawn_io_out_single : StageCfg :=
  { stdin := StdioCfg.inherit, stdout := StdioCfg.piped, stderr := StdioCfg.inherit }

/-- Single-command branch of `spawn_io_err`: only stderr piped, stdin
and stdout inherit. -/
def spawn_io_err_single : StageCfg :=
  { stdin := StdioCfg.inherit, stdout := StdioCfg.inherit, stderr := StdioCfg.piped }

/-- Single-command branch of `spawn_io_out_err`: stdout and stderr
piped, stdin inherits. -/
def spawn_io_out_err_single : StageCfg :=
  { stdin := StdioCfg.inherit, stdout := StdioCfg.piped, stderr := StdioCfg.piped }

/-- Single-command branch of `spawn_inherit_stdio` (the `run()` path):
stdin piped, stdout and stderr explicitly inherited. -/
def spawn_inherit_stdio_single : StageCfg :=
  { stdin := StdioCfg.piped, stdout := StdioCfg.inherit, stderr := StdioCfg.inherit }

/-- The single-command configuration each `spawn_io_*` entry point uses. -/
def singleStageCfg : SpawnPath → StageCfg
  | SpawnPath.io_all => spawn_io_all_single
  | SpawnPath.io_in => spawn_io_in_single
  | SpawnPath.io_in_out => spawn_io_in_out_single
  | SpawnPath.io_in_err => spawn_io_in_err_single
  | SpawnPath.io_out => spawn_io_out_single
  | SpawnPath.io_err => spawn_io_err_single
  | SpawnPath.io_out_err => spawn_io_out_err_single

/-- Stage configurations produced by a `spawn_io_*` entry point: the
empty pipeline spawns nothing; a single command uses that path's special
case; with two or more stages every variant delegates to
`spawn_io_all`, whose loop assigns `multiStageCfg`. -/
def spawnPathCfgs (path : SpawnPath) (conns : List (Cmd × PipeMode)) :
    List StageCfg :=
  if conns.length = 0 then []
  else if conns.length = 1 then [singleStageCfg path]
  else (List.range conns.length).map (multiStageCfg conns)

/-- Where mode `m` on the edge entering stage `i + 1` routes the edge
pipe's write end on stage `i`'s stdout. -/
def modeStdoutAttachment (m : PipeMode) (i : Nat) : StdioCfg :=
  match m with
  | PipeMode.Stdout => StdioCfg.pipeWrite i
  | PipeMode.Stderr => StdioCfg.inherit
  | PipeMode.Both => StdioCfg.pipeWrite i

/-- Where mode `m` on the edge entering stage `i + 1` routes the edge
pipe's write end on stage `i`'s stderr. -/
def modeStderrAttachment (m : PipeMode) (i : Nat) : StdioCfg :=
  match m with
  | PipeMode.Stdout => StdioCfg.inherit
  | PipeMode.Stderr => StdioCfg.pipeWrite i
  | PipeMode.Both => StdioCfg.pipeWrite i

/-- C4: in a pipeline of at least two stages, each non-last stage `i`
creates exactly one fresh OS pipe; its write end is attached per
stage `i + 1`'s declared routing mode (`Stdout`: stage `i`'s stdout;
`Stderr`: stage `i`'s stderr; `Both`: both streams get clones of the
same write end), and the pipe's read end becomes stage `i + 1`'s stdin. -/
theorem interstage_pipe_wiring (conns : List (Cmd × PipeMode)) (i : Nat)
    (m : PipeMode) (hi : i + 1 < conns.length)
    (hm : nextModeAt conns i = some m) :
    pipeCallsAt conns i = 1 ∧
    (multiStageCfg conns (i + 1)).stdin = StdioCfg.pipeRead i ∧
    (multiStageCfg conns i).stdout = modeStdoutAttachment m i ∧
    (multiStageCfg conns i).stderr = modeStderrAttachment m i := by
  have hne : i ≠ conns.length - 1 := by omega
  refine ⟨?_, ?_, ?_, ?_⟩
  · rw [pipeCallsAt, if_neg hne, hm]
  · show multiStageStdin (i + 1) = _
    rw [multiStageStdin, if_neg (Nat.succ_ne_zero i)]
    rfl
  · show multiStageStdout conns i = _
    cases m <;> (rw [multiStageStdout, if_neg hne, hm]; rfl)
  · show multiStageStderr conns i = _
    cases m <;> (rw [multiStageStderr, if_neg hne, hm]; rfl)

/-- C4 witness: a two-stage pipeline whose second stage declares
`Stderr` routing; the edge-0 pipe write end goes to stage 0's stderr,
stdout inherits, and stage 1's stdin is the edge-0 read end. -/
theorem interstage_pipe_wiring_witness :
    pipeCallsAt [(Cmd.new "a", PipeMode.Stdout), (Cmd.new "b", PipeMode.Stderr)] 0 = 1 ∧
    (multiStageCfg [(Cmd.new "a", PipeMode.Stdout), (Cmd.new "b", PipeMode.Stderr)] 1).stdin =
      StdioCfg.pipeRead 0 ∧
    (multiStageCfg [(Cmd.new "a", PipeMode.Stdout), (Cmd.new "b", PipeMode.Stderr)] 0).stdout =
      StdioCfg.inherit ∧
    (multiStageCfg [(Cmd.new "a", PipeMode.Stdout), (Cmd.new "b", PipeMode.Stderr)] 0).stderr =
      StdioCfg.pipeWrite 0 :=
  interstage_pipe_wiring
    [(Cmd.new "a", PipeMode.Stdout), (Cmd.new "b", PipeMode.Stderr)]
    0 PipeMode.Stderr (by simp) rfl

/-- C5: whichever streams the caller retained, once a pipeline has at
least two stages every `spawn_io_*` entry point delegates to
`spawn_io_all`, which configures the last stage with both stdout and
stderr piped. -/
theorem last_stage_always_piped (path : SpawnPath)
    (conns : List (Cmd × PipeMode)) (h2 : 2 ≤ conns.length) :
    (spawnPathCfgs path conns)[conns.length - 1]? =
      some { stdin := multiStageStdin (conns.length - 1),
             stdout := StdioCfg.piped, stderr := StdioCfg.piped } := by
  have h0 : ¬ conns.length = 0 := by omega
  have h1 : ¬ conns.length = 1 := by omega
  rw [spawnPathCfgs, if_neg h0, if_neg h1]
  have hlt : conns.length - 1 < conns.length := by omega
  rw [List.getElem?_map, List.getElem?_range hlt]
  show some (multiStageCfg conns (conns.length - 1)) = _
  rw [multiStageCfg, multiStageStdout, if_pos rfl, multiStageStderr, if_pos rfl]

/-- C5 witness: a two-stage pipeline spawned through `spawn_io_out`
(which retains stdout only) still pipes both final streams. -/
theorem last_stage_always_piped_witness :
    (spawnPathCfgs SpawnPath.io_out
      [(Cmd.new "a", PipeMode.Stdout), (Cmd.new "b", PipeMode.Stdout)])[1]? =
      some { stdin := StdioCfg.pipeRead 0,
             stdout := StdioCfg.piped, stderr := StdioCfg.piped } :=
  last_stage_always_piped SpawnPath.io_out
    [(Cmd.new "a", PipeMode.Stdout), (Cmd.new "b", PipeMode.Stdout)] (by simp)

/-- C6 counterexample: the claim says every spawn path pipes a
single-stage pipeline's stdin, but `spawn_io_out` only sets up stdout
and lets stdin (and stderr) inherit. -/
theorem single_stage_stdin_not_always_piped :
    spawnPathCfgs SpawnPath.io_out [(Cmd.new "cat", PipeMode.Stdout)] =
      [{ stdin := StdioCfg.inherit, stdout := StdioCfg.piped,
         stderr := StdioCfg.inherit }] ∧
    StdioCfg.inherit ≠ StdioCfg.piped := ⟨rfl, by decide⟩

/-- C6 (amended): for a single-stage pipeline, exactly the spawn paths
that retain stdin (`spawn_io_all`, `spawn_io_in`, `spawn_io_in_out`,
`spawn_io_in_err`) configure the child's stdin as piped, as does the
`run()` path `spawn_inherit_stdio`; the stdout/stderr-only paths
(`spawn_io_out`, `spawn_io_err`, `spawn_io_out_err`) let stdin inherit. -/
theorem single_stage_stdin_piped_iff (path : SpawnPath) :
    ((singleStageCfg path).stdin = StdioCfg.piped ↔
      (path = SpawnPath.io_all ∨ path = SpawnPath.io_in ∨
       path = SpawnPath.io_in_out ∨ path = SpawnPath.io_in_err)) ∧
    spawn_inherit_stdio_single.stdin = StdioCfg.piped := by
  cases path <;> exact ⟨by decide, rfl⟩

/-! ### Spawn result and pipeline-level buffered capture -/

/-- Runtime model of `Pipeline::spawn_io_all` (`src/cmd/pipeline.rs`).
`spawnErr` is the per-stage spawn oracle and `childAt` describes how
each spawned child behaves.  The empty pipeline returns a spawn with no
children and no retained handles; otherwise, if every spawn succeeds,
the first stage's stdin is retained and the last stage's captured
stdout/stderr behave as `childAt` dictates (the single- and multi-stage
branches agree on this shape; their stream configurations are stated
separately via `spawnPathCfgs`). -/
def spawnIoAllModel (conns : List (Cmd × PipeMode))
    (spawnErr : Nat → Option String) (childAt : Nat → ChildM) :
    Except Error PipelineSpawnM :=
  if conns.isEmpty then
    Except.ok { handle := ⟨[]⟩, stdinRetained := false,
                stdoutRead := none, stderrRead := none }
  else
    match (spawnStages conns spawnErr).2 with
    | Except.error e => Except.error e
    | Except.ok _ =>
      Except.ok { handle := ⟨(List.range conns.length).map childAt⟩,
                  stdinRetained := true,
                  stdoutRead := (childAt (conns.length - 1)).stdoutRead,
                  stderrRead := (childAt (conns.length - 1)).stderrRead }

/-- `Pipeline::output_bytes` = `execute_internal(true)`
(`src/cmd/pipeline.rs`): spawn the graph, then run the capture branch. -/
def pipelineOutputBytes (conns : List (Cmd × PipeMode))
    (spawnErr : Nat → Option String) (childAt : Nat → ChildM) :
    Except Error (List Nat) :=
  match spawnIoAllModel conns spawnErr childAt with
  | Except.error e => Except.error e
  | Except.ok sp => executeCapture sp

/-- C8: a pipeline with zero stages is legal: spawning it yields zero
children and no retained stream handles, and buffered capture
(`output_bytes`) returns the empty byte sequence without error —
whatever the OS oracles would have said. -/
theorem empty_pipeline_noop (spawnErr : Nat → Option String)
    (childAt : Nat → ChildM) :
    spawnIoAllModel [] spawnErr childAt =
      Except.ok { handle := ⟨[]⟩, stdinRetained := false,
                  stdoutRead := none, stderrRead := none } ∧
    pipelineOutputBytes [] spawnErr childAt = Except.ok [] :=
  ⟨rfl, rfl⟩

/-! ### Echo suppression through the builder surface -/

/-- One builder step applicable to an existing `Pipeline`
(`src/cmd/pipeline.rs`). -/
inductive BuildOp
  | pipe (c : Cmd)
  | pipe_out (c : Cmd)
  | pipe_err (c : Cmd)
  | pipe_out_err (c : Cmd)
  | no_echo
deriving DecidableEq

/-- Apply one builder step, exactly as the corresponding `Pipeline`
method does. -/
def BuildOp.apply (p : Pipeline) : BuildOp → Pipeline
  | BuildOp.pipe c => p.pipe c
  | BuildOp.pipe_out c => p.pipe_out c
  | BuildOp.pipe_err c => p.pipe_err c
  | BuildOp.pipe_out_err c => p.pipe_out_err c
  | BuildOp.no_echo => p.no_echo

/-- Whether a builder step is the explicit pipeline-level `no_echo`. -/
def BuildOp.isNoEcho : BuildOp → Bool
  | BuildOp.no_echo => true
  | _ => false

/-- The ways a `Pipeline` value comes into existence from `Cmd`s
(`src/cmd/command.rs`): promotion of a single command, or one of the
`Cmd::pipe*` constructors. -/
inductive PipelineInit
  | promote (c : Cmd)
  | cmdPipe (a b : Cmd)
  | cmdPipeOut (a b : Cmd)
  | cmdPipeErr (a b : Cmd)
  | cmdPipeOutErr (a b : Cmd)
deriving DecidableEq

/-- Build the initial pipeline. -/
def PipelineInit.build : PipelineInit → Pipeline
  | PipelineInit.promote c => c.into_pipeline
  | PipelineInit.cmdPipe a b => a.pipe b
  | PipelineInit.cmdPipeOut a b => a.pipe_out b
  | PipelineInit.cmdPipeErr a b => a.pipe_err b
  | PipelineInit.cmdPipeOutErr a b => a.pipe_out_err b

/-- The echo-suppression flag the initial pipeline starts with. -/
def PipelineInit.initialFlag : PipelineInit → Bool
  | PipelineInit.promote c => c.suppress_echo
  | PipelineInit.cmdPipe a b => a.suppress_echo || b.suppress_echo
  | PipelineInit.cmdPipeOut a b => a.suppress_echo || b.suppress_echo
  | PipelineInit.cmdPipeErr a b => a.suppress_echo || b.suppress_echo
  | PipelineInit.cmdPipeOutErr a b => a.suppress_echo || b.suppress_echo

/-- A pipeline built by an arbitrary sequence of builder operations. -/
def buildPipeline (init : PipelineInit) (ops : List BuildOp) : Pipeline :=
  ops.foldl BuildOp.apply init.build

/-- The OR of the suppression flags of all stages of a pipeline. -/
def stagesSuppressEcho (p : Pipeline) : Bool :=
  p.connections.any (fun cm => cm.1.suppress_echo)

theorem buildOp_suppress_echo (op : BuildOp) (p : Pipeline) :
    (BuildOp.apply p op).suppress_echo = (p.suppress_echo || op.isNoEcho) := by
  cases op <;>
    simp [BuildOp.apply, BuildOp.isNoEcho, Pipeline.pipe, Pipeline.pipe_out,
      Pipeline.pipe_err, Pipeline.pipe_out_err, Pipeline.no_echo]

theorem foldl_suppress_echo (ops : List BuildOp) :
    ∀ p : Pipeline,
      (ops.foldl BuildOp.apply p).suppress_echo =
        (p.suppress_echo || ops.any BuildOp.isNoEcho) := by
  induction ops with
  | nil => intro p; simp
  | cons op rest ih =>
    intro p
    rw [List.foldl_cons, ih (BuildOp.apply p op), buildOp_suppress_echo]
    simp [Bool.or_assoc]

/-- C7 counterexample: appending a suppressed command to an existing
pipeline via `Pipeline::pipe_out` does not OR its flag in.  The
pipeline `cmd("a").into_pipeline().pipe_out(cmd("b").no_echo())` has
`suppress_echo = false` although the OR of its stage flags is `true`
and no pipeline-level `no_echo` override was applied. -/
theorem pipeline_suppress_echo_not_stage_or :
    (buildPipeline (PipelineInit.promote (Cmd.new "a"))
        [BuildOp.pipe_out ((Cmd.new "b").no_echo)]).suppress_echo = false ∧
    stagesSuppressEcho
      (buildPipeline (PipelineInit.promote (Cmd.new "a"))
        [BuildOp.pipe_out ((Cmd.new "b").no_echo)]) = true ∧
    [BuildOp.pipe_out ((Cmd.new "b").no_echo)].any BuildOp.isNoEcho = false :=
  ⟨rfl, rfl, rfl⟩

/-- C7 (amended): the `suppress_echo` flag of a pipeline built by any
sequence of builder operations equals the flag established when the
pipeline was created from `Cmd`s — the stage flag for promotion, the OR
of the two initial stage flags for the `Cmd::pipe*` constructors — ORed
with any explicit pipeline-level `no_echo()`.  Commands appended later
through `Pipeline::pipe*` do not contribute their own flag. -/
theorem pipeline_suppress_echo_flag (init : PipelineInit) (ops : List BuildOp) :
    (buildPipeline init ops).suppress_echo =
      (init.initialFlag || ops.any BuildOp.isNoEcho) := by
  rw [buildPipeline, foldl_suppress_echo]
  cases init <;>
    simp [PipelineInit.build, PipelineInit.initialFlag, Cmd.into_pipeline,
      Cmd.pipe, Cmd.pipe_out, Cmd.pipe_err, Cmd.pipe_out_err]

/-- C9 counterexample: the empty string contains none of the designated
special characters, yet `quote_argument` does not return it unchanged
(it renders a pair of double quotes), so quoting is not the identity on
all special-character-free strings. -/
theorem quote_argument_empty_breaks_identity :
    "".data.all (fun c => ! isSpecialChar c) = true ∧
    quote_argument "" ≠ "" :=
  ⟨rfl, by decide⟩

/-- C9 (amended): argument quoting for the echo transcript is a pure
function — equal inputs yield equal renderings — and for every
**nonempty** string containing none of the designated special
characters it is the identity.  (The empty string is the one exception:
it renders as a pair of double quotes.) -/
theorem quote_argument_pure_and_id_on_safe :
    (∀ s t : String, s = t → quote_argument s = quote_argument t) ∧
    (∀ s : String, s ≠ "" →
      s.data.all (fun c => ! isSpecialChar c) = true →
      quote_argument s = s) :=
  ⟨fun _ _ h => congrArg quote_argument h,
   fun s hne hsafe => quote_argument_of_safe s hne hsafe⟩

/-- C9 witness: `hello` has no special characters and is rendered
unchanged. -/
theorem quote_argument_pure_and_id_on_safe_witness :
    quote_argument "hello" = "hello" :=
  quote_argument_pure_and_id_on_safe.2 "hello" (by decide) (by decide)

/-- C10: `quote_argument` maps the empty string to the two-character
rendering consisting of a pair of double quotes, not to the empty
string, even though the empty string contains no special characters. -/
theorem quote_argument_empty_rendering :
    quote_argument "" = "\"\"" ∧
    quote_argument "" ≠ "" ∧
    "".data.any isSpecialChar = false :=
  ⟨rfl, by decide, rfl⟩

end Scripty
